import Mathlib

/-!
Shallow embedding of src/app/app.py, a minimal HTTP server for a
supply-chain proof of concept. The handler dispatches GET requests on the
raw request target; the main block parses the PORT environment variable
with int() and binds an HTTPServer. Definitions below follow the source
line by line; library behavior that the program relies on (json.dumps,
int(), BaseHTTPRequestHandler dispatch) is modelled from the CPython
semantics the program invokes.
-/

/-- HTTP response as produced by the handler: status code, the value of the
Content-Type header it sends, and the body bytes written to wfile, as a
string. -/
structure Response where
  status : Nat
  contentType : String
  body : String
deriving DecidableEq

/-- JSON values as the program uses them: json.dumps is applied on line 20
to a dict with string keys and string values. -/
inductive Json where
  | str : String → Json
  | obj : List (String × Json) → Json

/-- Lower-case hexadecimal digit, for the uXXXX escapes of json.dumps. -/
def hexDigit (n : Nat) : Char :=
  if n < 10 then Char.ofNat (48 + n) else Char.ofNat (87 + n % 16)

/-- Four-digit hexadecimal rendering of a code point below 2^16. -/
def hex4 (n : Nat) : String :=
  String.mk [hexDigit (n / 4096 % 16), hexDigit (n / 256 % 16),
             hexDigit (n / 16 % 16), hexDigit (n % 16)]

/-- Escape of one character inside a JSON string literal, following
json.dumps with its defaults (ensure_ascii escapes everything outside the
printable ASCII range; model restricted to the basic multilingual plane,
which covers every string the program serializes). -/
def pyJsonEscapeChar (c : Char) : String :=
  if c = Char.ofNat 34 then "\\\""
  else if c = Char.ofNat 92 then "\\\\"
  else if c = Char.ofNat 10 then "\\n"
  else if c = Char.ofNat 13 then "\\r"
  else if c = Char.ofNat 9 then "\\t"
  else if c = Char.ofNat 8 then "\\b"
  else if c = Char.ofNat 12 then "\\f"
  else if c.toNat < 32 || c.toNat > 126 then "\\u" ++ hex4 c.toNat
  else String.singleton c

/-- Serialization of a JSON string literal, double quotes included. -/
def pyJsonStr (s : String) : String :=
  "\"" ++ String.join (s.data.map pyJsonEscapeChar) ++ "\""

mutual

/-- Serialization following json.dumps with default separators: items joined
by a comma and a space, keys and values joined by a colon and a space. -/
def Json.dumps : Json → String
  | .str s => pyJsonStr s
  | .obj kvs => "\x7b" ++ Json.dumpsPairs kvs ++ "\x7d"

/-- Serialization of the key-value items of an object, comma separated. -/
def Json.dumpsPairs : List (String × Json) → String
  | [] => ""
  | (k, v) :: [] => pyJsonStr k ++ ": " ++ Json.dumps v
  | (k, v) :: rest => pyJsonStr k ++ ": " ++ Json.dumps v ++ ", " ++ Json.dumpsPairs rest

end

namespace HealthHandler

/-- Lines 15 to 25: HealthHandler.do_GET. The argument is self.path, the raw
request target of the HTTP request line, query string included, compared
verbatim against the literal "/health". -/
def do_GET (path : String) : Response :=
  if path = "/health" then
    { status := 200, contentType := "application/json",
      body := Json.dumps (Json.obj [("status", Json.str "ok")]) }
  else
    { status := 200, contentType := "text/plain",
      body := "Supply Chain POC App" }

/-- Lines 27 to 28: the log_message override is pass, so the list of log
lines it writes is empty whatever the format string and arguments are. -/
def log_message (_fmt : String) (_args : List String) : List String := []

end HealthHandler

/-- Request dispatch of http.server.BaseHTTPRequestHandler, which the
handler class inherits: a request with method M is routed to the do_M
method when the subclass defines one; otherwise the base class answers
with send_error 501, Unsupported method. HealthHandler defines only
do_GET. -/
def handle_one_request (method : String) (path : String) : Response :=
  if method = "GET" then HealthHandler.do_GET path
  else { status := 501, contentType := "text/html;charset=utf-8",
         body := "Unsupported method (" ++ method ++ ")" }

/-- One handled request paired with the per-request log lines it emits:
send_response calls log_request, which delegates to the overridden
log_message of lines 27 to 28. -/
def handleWithLog (method : String) (path : String) : Response × List String :=
  (handle_one_request method path,
   HealthHandler.log_message "%s %s %s" [method ++ " " ++ path, "200", "-"])

/-- A sequence of requests served in order. The handler keeps no state, so
serving is a plain map over the requests, each a method and a path. -/
def serveRequests (reqs : List (String × String)) : List Response :=
  reqs.map (fun r => handle_one_request r.1 r.2)

/-- Digit tail of a Python int literal: after the first digit, underscores
may appear singly and only between two digits (the int() grammar). -/
def pyDigitsRest : List Char → Nat → Option Nat
  | [], acc => some acc
  | '_' :: c :: rest, acc =>
      if c.isDigit then pyDigitsRest rest (acc * 10 + (c.toNat - 48)) else none
  | c :: rest, acc =>
      if c.isDigit then pyDigitsRest rest (acc * 10 + (c.toNat - 48)) else none

/-- Unsigned digit string of a Python int literal: nonempty, starting with a
digit, underscores only between digits. -/
def pyDigits : List Char → Option Nat
  | [] => none
  | c :: rest => if c.isDigit then pyDigitsRest rest (c.toNat - 48) else none

/-- Whitespace as stripped by Python int() around the digits (the ASCII
part of the Unicode whitespace class, which covers the claims). -/
def pyIsSpace (c : Char) : Bool :=
  c = Char.ofNat 32 || c = Char.ofNat 9 || c = Char.ofNat 10 ||
  c = Char.ofNat 13 || c = Char.ofNat 11 || c = Char.ofNat 12

/-- Strip of leading and trailing whitespace from a character list. -/
def pyStrip (cs : List Char) : List Char :=
  ((cs.dropWhile pyIsSpace).reverse.dropWhile pyIsSpace).reverse

/-- Python int applied to a string: surrounding whitespace is stripped, an
optional sign precedes the digits, and anything else raises ValueError,
modelled as none. -/
def pyIntOfString (s : String) : Option Int :=
  match pyStrip s.data with
  | '+' :: rest => (pyDigits rest).map (fun n => (n : Int))
  | '-' :: rest => (pyDigits rest).map (fun n => -(n : Int))
  | cs => (pyDigits cs).map (fun n => (n : Int))

/-- Line 32: port = int(os.environ.get("PORT", 8080)). With PORT unset, get
returns the int 8080 and int() is the identity on it; with PORT set, its
string value goes through int(), which raises ValueError on a non-numeric
string (none). -/
def getPort (envPORT : Option String) : Option Int :=
  match envPORT with
  | none => some 8080
  | some s => pyIntOfString s

/-- Address a created HTTPServer is bound to. -/
structure ServerConfig where
  host : String
  port : Int
deriving DecidableEq

/-- The two startup failures the main block can raise: ValueError from
int() on line 32, and the OSError or OverflowError from the HTTPServer
bind on line 33. -/
inductive StartupError where
  | valueError : StartupError
  | bindError : StartupError
deriving DecidableEq

/-- Line 33: HTTPServer(("0.0.0.0", port), HealthHandler). Whether the bind
succeeds depends on the host environment, abstracted by the bindable
predicate: false for a port already bound or outside the valid range. -/
def bindServer (bindable : Int → Bool) (p : Int) : Except StartupError ServerConfig :=
  if bindable p then Except.ok { host := "0.0.0.0", port := p }
  else Except.error StartupError.bindError

/-- Lines 31 to 35, the main block: parse the port, then bind. The code has
no try block, so a ValueError from int() or a bind error propagates and
terminates the process; a successful bind yields the listening server. -/
def mainStartup (envPORT : Option String) (bindable : Int → Bool) :
    Except StartupError ServerConfig :=
  match getPort envPORT with
  | none => Except.error StartupError.valueError
  | some p => bindServer bindable p

/-- Lines 8 to 11: the module names the program imports at startup for SBOM
decoration. -/
def decorativeImports : List String := ["flask", "requests", "pyyaml", "cryptography"]

/-- Top-level modules the four dependency distributions install. Per the
source comment on line 10 of app.py, the pyyaml distribution is imported
as yaml: the module it installs is named yaml, not pyyaml. -/
def providedModules : List String := ["flask", "requests", "yaml", "cryptography"]

/-- Whether an import statement of module m resolves. -/
def importOk (m : String) : Bool := providedModules.contains m

/-- Module import runs before the main block: startup reaches line 31 only
if every module-level import resolves. -/
def importsSucceed : Bool := decorativeImports.all importOk

/-- C1: on a GET request for /health the handler responds with status 200,
Content-Type application/json, and a body that is json.dumps of the object
with the single field status whose value is the string ok. -/
theorem c1_health_ok :
    HealthHandler.do_GET "/health" =
      { status := 200, contentType := "application/json",
        body := Json.dumps (Json.obj [("status", Json.str "ok")]) } ∧
    Json.dumps (Json.obj [("status", Json.str "ok")]) = "\x7b\"status\": \"ok\"\x7d" :=
  ⟨rfl, rfl⟩

/-- C2: on a GET request for any path other than /health the handler
responds with status 200, Content-Type text/plain, and the literal body
Supply Chain POC App. -/
theorem c2_default_response (path : String) (h : path ≠ "/health") :
    HealthHandler.do_GET path =
      { status := 200, contentType := "text/plain",
        body := "Supply Chain POC App" } := by
  simp [HealthHandler.do_GET, h]

/-- Witness for C2 at the root path. -/
theorem c2_default_response_witness :
    HealthHandler.do_GET "/" =
      { status := 200, contentType := "text/plain",
        body := "Supply Chain POC App" } :=
  c2_default_response "/" (by decide)

/-- C3 counterexample: with PORT set to the non-numeric string abc, line 32
does NOT fall back to 8080: int of a non-numeric string raises ValueError,
so the computed port is none, not 8080. -/
theorem c3_counterexample :
    getPort (some "abc") = none ∧ ¬ getPort (some "abc") = some 8080 :=
  ⟨rfl, by decide⟩

/-- C3 amended: with PORT unset, startup computes port 8080 and, when that
port can be bound, the server binds 0.0.0.0 port 8080; with PORT set to a
non-numeric string, int() raises ValueError and startup terminates with
that error instead of falling back to 8080. -/
theorem c3_amended :
    getPort none = some 8080 ∧
    (∀ b : Int → Bool, b 8080 = true →
      mainStartup none b = Except.ok { host := "0.0.0.0", port := 8080 }) ∧
    getPort (some "abc") = none ∧
    (∀ b : Int → Bool, mainStartup (some "abc") b = Except.error StartupError.valueError) := by
  refine ⟨rfl, fun b hb => ?_, rfl, fun _ => rfl⟩
  show bindServer b 8080 = Except.ok { host := "0.0.0.0", port := 8080 }
  simp [bindServer, hb]

/-- Witness for C3 amended with every port bindable: an unset PORT binds
the server on port 8080. -/
theorem c3_amended_witness :
    mainStartup none (fun _ => true) = Except.ok { host := "0.0.0.0", port := 8080 } :=
  c3_amended.2.1 (fun _ => true) rfl

/-- C4: the decorative imports are not behavior-free at startup: line 10
names the module pyyaml, but the pyyaml distribution installs the module
named yaml, as the source comment on the same line records, so that
statement fails at module load and execution never reaches the main
block. -/
theorem c4_import_fails :
    importOk "pyyaml" = false ∧ importsSucceed = false ∧
    importOk "flask" = true ∧ importOk "requests" = true ∧
    importOk "cryptography" = true := by
  decide

/-- C5 counterexample: a POST request is not answered under the 200 GET
contract; the inherited dispatch rejects the unknown method with 501. -/
theorem c5_counterexample :
    (handle_one_request "POST" "/").status = 501 ∧
    ¬ (handle_one_request "POST" "/").status = 200 := by
  decide

/-- C5 amended: only unknown paths are normal control flow answered with
200; a request whose method is not GET is answered by the library default,
status 501 Unsupported method. -/
theorem c5_amended (method path : String) (h : method ≠ "GET") :
    (handle_one_request method path).status = 501 := by
  simp [handle_one_request, h]

/-- Witness for C5 amended at POST /health. -/
theorem c5_amended_witness : (handle_one_request "POST" "/health").status = 501 :=
  c5_amended "POST" "/health" (by decide)

/-- C6: with PORT set to 9090 startup computes port 9090, not 8080, and
when that port can be bound the HTTPServer listener is created on
0.0.0.0 port 9090. -/
theorem c6_port_9090 :
    getPort (some "9090") = some 9090 ∧ (9090 : Int) ≠ 8080 ∧
    (∀ b : Int → Bool, b 9090 = true →
      mainStartup (some "9090") b = Except.ok { host := "0.0.0.0", port := 9090 }) := by
  refine ⟨rfl, by decide, fun b hb => ?_⟩
  show bindServer b 9090 = Except.ok { host := "0.0.0.0", port := 9090 }
  simp [bindServer, hb]

/-- Witness for C6 with every port bindable. -/
theorem c6_port_9090_witness :
    mainStartup (some "9090") (fun _ => true) =
      Except.ok { host := "0.0.0.0", port := 9090 } :=
  c6_port_9090.2.2 (fun _ => true) rfl

/-- C7: request handling is deterministic and history-independent: the
response at position i of a served sequence depends only on the request at
position i, and identical requests anywhere in the sequence receive
identical responses. -/
theorem c7_history_independent :
    (∀ (reqs : List (String × String)) (i : Nat),
      (serveRequests reqs).get? i = (reqs.get? i).map (fun r => handle_one_request r.1 r.2)) ∧
    (∀ (reqs : List (String × String)) (i j : Nat), reqs.get? i = reqs.get? j →
      (serveRequests reqs).get? i = (serveRequests reqs).get? j) := by
  have hmap : ∀ (reqs : List (String × String)) (i : Nat),
      (serveRequests reqs).get? i = (reqs.get? i).map (fun r => handle_one_request r.1 r.2) := by
    intro reqs i
    simp [serveRequests, List.get?_map]
  exact ⟨hmap, fun reqs i j hij => by rw [hmap, hmap, hij]⟩

/-- Witness for C7: the first and third requests of a concrete sequence are
identical and get identical responses. -/
theorem c7_history_independent_witness :
    (serveRequests [("GET", "/health"), ("GET", "/foo"), ("GET", "/health")]).get? 0 =
    (serveRequests [("GET", "/health"), ("GET", "/foo"), ("GET", "/health")]).get? 2 :=
  c7_history_independent.2 [("GET", "/health"), ("GET", "/foo"), ("GET", "/health")] 0 2 (by decide)

/-- C8 counterexample: startup bind failure is not the only failure class:
with every port bindable, PORT set to nope still terminates startup, with a
ValueError from int() rather than a bind error. -/
theorem c8_counterexample :
    mainStartup (some "nope") (fun _ => true) = Except.error StartupError.valueError ∧
    StartupError.valueError ≠ StartupError.bindError :=
  ⟨rfl, by decide⟩

/-- C8 amended: a failed or invalid bind is fatal at startup with no
recovery path, the error propagating out of the main block; but it is not
the only failure class, since a non-numeric PORT aborts startup with a
ValueError before any bind is attempted. -/
theorem c8_amended :
    (∀ (env : Option String) (b : Int → Bool) (p : Int),
      getPort env = some p → b p = false →
      mainStartup env b = Except.error StartupError.bindError) ∧
    mainStartup (some "nope") (fun _ => true) = Except.error StartupError.valueError := by
  refine ⟨fun env b p hp hb => ?_, rfl⟩
  unfold mainStartup
  rw [hp]
  simp [bindServer, hb]

/-- Witness for C8 amended: port 8080 parses but nothing is bindable. -/
theorem c8_amended_witness :
    mainStartup (some "8080") (fun _ => false) = Except.error StartupError.bindError :=
  c8_amended.1 (some "8080") (fun _ => false) 8080 rfl rfl

/-- C9: the log_message override emits no output, so every handled request
produces an empty list of per-request log lines. -/
theorem c9_no_logs :
    (∀ (fmt : String) (args : List String), HealthHandler.log_message fmt args = []) ∧
    (∀ (method path : String), (handleWithLog method path).2 = []) :=
  ⟨fun _ _ => rfl, fun _ _ => rfl⟩

/-- C10: dispatch to the health branch requires exact case-sensitive
equality of the full request target with /health: a query string, a
trailing slash, or a case variant all fall to the text/plain default, and
the JSON content type is returned exactly on the target /health. -/
theorem c10_exact_match :
    HealthHandler.do_GET "/health?x=1" =
      { status := 200, contentType := "text/plain", body := "Supply Chain POC App" } ∧
    HealthHandler.do_GET "/health/" =
      { status := 200, contentType := "text/plain", body := "Supply Chain POC App" } ∧
    HealthHandler.do_GET "/Health" =
      { status := 200, contentType := "text/plain", body := "Supply Chain POC App" } ∧
    (∀ p : String, (HealthHandler.do_GET p).contentType = "application/json" ↔ p = "/health") := by
  refine ⟨rfl, rfl, rfl, fun p => ?_⟩
  by_cases hp : p = "/health"
  · simp [HealthHandler.do_GET, hp]
  · simp [HealthHandler.do_GET, hp]
